import Mathlib

/-
Verification of the FFI boundary in `src/ffi/src/vm.rs` (repository ERA).

The source file defines a `#[repr(C)]` configuration record and three
boundary functions `agent_launch_vm`, `agent_stop_vm`, `agent_cleanup_vm`,
each returning a C `int` status.  The module declares no `static` items:
the three functions read only the memory referenced by their own arguments
and return `0` or `-1`.  The embedding below models a borrowed C string
pointer as `Option (List Nat)` (`none` for a null pointer, `some bs` for a
NUL-terminated buffer whose content bytes, as `CStr::to_bytes` yields them,
are `bs`) and each function as the pure function of its inputs that the
source computes.
-/

namespace ERA

/-- A borrowed C string reference crossing the boundary: `none` models a
null pointer; `some bs` models a pointer to a NUL-terminated buffer whose
content bytes before the terminator (what `CStr::to_bytes` returns) are
`bs`. -/
abbrev CStrRef := Option (List Nat)

/-- The `repr(C)` struct `AgentVMConfig` of `src/ffi/src/vm.rs`: three
borrowed text references and two unsigned 32-bit counts. -/
structure AgentVMConfig where
  id : CStrRef
  rootfs_image : CStrRef
  cpu_count : Nat
  memory_mib : Nat
  network_mode : CStrRef

/-- Shallow embedding of `agent_launch_vm` (`src/ffi/src/vm.rs`, lines
14-31): return `-1` if the `config` pointer is null, if `config.id` is
null, or if the `id` string is empty; otherwise return `0`.  The source
reads no other field of the configuration. -/
def agent_launch_vm (config : Option AgentVMConfig) : Int :=
  match config with
  | none => -1
  | some vm_config =>
    match vm_config.id with
    | none => -1
    | some bs => if bs.isEmpty then -1 else 0

/-- Shallow embedding of `agent_stop_vm` (`src/ffi/src/vm.rs`, lines
34-42): return `-1` if `vm_id` is null or the string is empty, else `0`. -/
def agent_stop_vm (vm_id : CStrRef) : Int :=
  match vm_id with
  | none => -1
  | some bs => if bs.isEmpty then -1 else 0

/-- Shallow embedding of `agent_cleanup_vm` (`src/ffi/src/vm.rs`, lines
45-53): return `-1` if `vm_id` is null or the string is empty, else `0`. -/
def agent_cleanup_vm (vm_id : CStrRef) : Int :=
  match vm_id with
  | none => -1
  | some bs => if bs.isEmpty then -1 else 0

/-- One boundary call: a lifecycle request as it crosses the FFI surface. -/
inductive Op where
  | launch (config : Option AgentVMConfig)
  | stop (vm_id : CStrRef)
  | cleanup (vm_id : CStrRef)

/-- The status a single boundary call returns. -/
def runOp : Op → Int
  | Op.launch c => agent_launch_vm c
  | Op.stop i => agent_stop_vm i
  | Op.cleanup i => agent_cleanup_vm i

/-- The process-wide mutable state shared by the three functions.
`src/ffi/src/vm.rs` declares no `static` item, so that state is empty:
there is in particular no lifecycle state table in the code. -/
abbrev ModuleState := Unit

/-- One boundary call as a state transition: the returned status paired
with the process state after the call.  The source functions write no
process state, so the state component is passed through unchanged. -/
def stepCall (s : ModuleState) (op : Op) : Int × ModuleState := (runOp op, s)

/-- The statuses returned by a sequence of boundary calls, threading the
process state left to right. -/
def runTraceFrom : ModuleState → List Op → List Int
  | _, [] => []
  | s, op :: rest => (stepCall s op).1 :: runTraceFrom (stepCall s op).2 rest

/-- The statuses of a call sequence started at process start. -/
def runTrace (ops : List Op) : List Int := runTraceFrom () ops

/-- A continuation byte of a UTF-8 sequence: high bits `10`. -/
def isUtf8Cont (b : Nat) : Bool := 0x80 ≤ b && b ≤ 0xBF

/-- Modelled from the spec: "valid text encoding" means the byte sequence
is valid UTF-8, the property `str::from_utf8` checks.  The source comment
in `agent_launch_vm` claims this check happens, but `CStr::to_bytes`
performs no encoding validation, so the check is absent from the code;
this definition only supplies the vocabulary the claims use.  The cases
follow RFC 3629: ASCII bytes, two-byte leads `C2..DF`, three-byte leads
`E0`/`E1..EC`/`ED`/`EE..EF` with their restricted first continuations
(excluding overlong forms and surrogates), and four-byte leads
`F0`/`F1..F3`/`F4` (excluding overlong forms and values above `U+10FFFF`). -/
def validUtf8 : List Nat → Bool
  | [] => true
  | b :: rest =>
    if b ≤ 0x7F then validUtf8 rest
    else if 0xC2 ≤ b && b ≤ 0xDF then
      match rest with
      | c1 :: rest2 => isUtf8Cont c1 && validUtf8 rest2
      | [] => false
    else if b = 0xE0 then
      match rest with
      | c1 :: c2 :: rest2 =>
        (0xA0 ≤ c1 && c1 ≤ 0xBF) && isUtf8Cont c2 && validUtf8 rest2
      | _ => false
    else if 0xE1 ≤ b && b ≤ 0xEC then
      match rest with
      | c1 :: c2 :: rest2 => isUtf8Cont c1 && isUtf8Cont c2 && validUtf8 rest2
      | _ => false
    else if b = 0xED then
      match rest with
      | c1 :: c2 :: rest2 =>
        (0x80 ≤ c1 && c1 ≤ 0x9F) && isUtf8Cont c2 && validUtf8 rest2
      | _ => false
    else if 0xEE ≤ b && b ≤ 0xEF then
      match rest with
      | c1 :: c2 :: rest2 => isUtf8Cont c1 && isUtf8Cont c2 && validUtf8 rest2
      | _ => false
    else if b = 0xF0 then
      match rest with
      | c1 :: c2 :: c3 :: rest2 =>
        (0x90 ≤ c1 && c1 ≤ 0xBF) && isUtf8Cont c2 && isUtf8Cont c3 && validUtf8 rest2
      | _ => false
    else if 0xF1 ≤ b && b ≤ 0xF3 then
      match rest with
      | c1 :: c2 :: c3 :: rest2 =>
        isUtf8Cont c1 && isUtf8Cont c2 && isUtf8Cont c3 && validUtf8 rest2
      | _ => false
    else if b = 0xF4 then
      match rest with
      | c1 :: c2 :: c3 :: rest2 =>
        (0x80 ≤ c1 && c1 ≤ 0x8F) && isUtf8Cont c2 && isUtf8Cont c3 && validUtf8 rest2
      | _ => false
    else false

/-- The bytes of the identifier string vm-1. -/
def id0 : List Nat := [118, 109, 45, 49]

/-- The configuration of the spec scenario: id vm-1, rootfs_image
img.qcow2, 2 cpus, 512 MiB, bridge networking (all strings as bytes). -/
def cfg0 : AgentVMConfig :=
  { id := some id0
  , rootfs_image := some [105, 109, 103, 46, 113, 99, 111, 119, 50]
  , cpu_count := 2
  , memory_mib := 512
  , network_mode := some [98, 114, 105, 100, 103, 101] }

/-- A configuration with a valid id vm-1 but every other field invalid per
the spec invariant: null rootfs_image, zero cpu_count, zero memory_mib,
null network_mode. -/
def cfgBad : AgentVMConfig :=
  { id := some id0
  , rootfs_image := none
  , cpu_count := 0
  , memory_mib := 0
  , network_mode := none }

/-- A configuration whose id is the single byte 0xFF: non-null, non-empty,
and not valid UTF-8. -/
def cfgFF : AgentVMConfig :=
  { id := some [0xFF]
  , rootfs_image := cfg0.rootfs_image
  , cpu_count := cfg0.cpu_count
  , memory_mib := cfg0.memory_mib
  , network_mode := cfg0.network_mode }

lemma agent_stop_vm_zero_or_neg_one (p : CStrRef) :
    agent_stop_vm p = 0 ∨ agent_stop_vm p = -1 := by
  cases p with
  | none => exact Or.inr rfl
  | some bs =>
    cases bs with
    | nil => exact Or.inr rfl
    | cons a t => exact Or.inl rfl

lemma agent_cleanup_vm_zero_or_neg_one (p : CStrRef) :
    agent_cleanup_vm p = 0 ∨ agent_cleanup_vm p = -1 := by
  cases p with
  | none => exact Or.inr rfl
  | some bs =>
    cases bs with
    | nil => exact Or.inr rfl
    | cons a t => exact Or.inl rfl

lemma agent_launch_vm_zero_or_neg_one (c : Option AgentVMConfig) :
    agent_launch_vm c = 0 ∨ agent_launch_vm c = -1 := by
  cases c with
  | none => exact Or.inr rfl
  | some cfg =>
    rcases cfg with ⟨i, r, cc, m, nm⟩
    cases i with
    | none => exact Or.inr rfl
    | some bs =>
      cases bs with
      | nil => exact Or.inr rfl
      | cons a t => exact Or.inl rfl

lemma agent_stop_vm_of_ne_nil (bs : List Nat) (h : bs ≠ []) :
    agent_stop_vm (some bs) = 0 := by
  cases bs with
  | nil => exact absurd rfl h
  | cons a t => rfl

lemma agent_cleanup_vm_of_ne_nil (bs : List Nat) (h : bs ≠ []) :
    agent_cleanup_vm (some bs) = 0 := by
  cases bs with
  | nil => exact absurd rfl h
  | cons a t => rfl

/-- Claim C1, counterexample: with the valid scenario configuration, the
first launch succeeds and the second launch with the same id, before any
cleanup, returns `0` again — not a failure status, hence not
`AlreadyExists` as the claim states. -/
theorem double_launch_counterexample :
    runTrace [Op.launch (some cfg0), Op.launch (some cfg0)] = [0, 0] ∧
    ¬ (runTrace [Op.launch (some cfg0), Op.launch (some cfg0)]).getLastD (-1) < 0 := by
  decide

/-- Claim C1, amended: if `launch(cfg)` succeeds once, a second launch with
the same configuration before cleanup also returns `0`: the code keeps no
lifecycle state table and never invokes a backend, so a relaunch is never
rejected. -/
theorem double_launch_succeeds_again (cfg : AgentVMConfig)
    (h : agent_launch_vm (some cfg) = 0) :
    runTrace [Op.launch (some cfg), Op.launch (some cfg)] = [0, 0] := by
  simp [runTrace, runTraceFrom, stepCall, runOp, h]

/-- Claim C1, witness: the amended statement applied to the scenario
configuration. -/
theorem double_launch_succeeds_again_witness :
    agent_launch_vm (some cfg0) = 0 ∧
    runTrace [Op.launch (some cfg0), Op.launch (some cfg0)] = [0, 0] :=
  ⟨by decide, double_launch_succeeds_again cfg0 (by decide)⟩

/-- Claim C2, counterexample: `stop` on the valid id vm-1 with no entry in
any table (no prior call at all) returns `0`, not `NotFound`; and after a
launch, stopping twice returns `0` both times, so stop is idempotent,
contradicting both parts of the claim. -/
theorem stop_unknown_id_counterexample :
    runTrace [Op.stop (some id0)] = [0] ∧
    runTrace [Op.launch (some cfg0), Op.stop (some id0), Op.stop (some id0)] =
      [0, 0, 0] ∧
    ¬ ((0 : Int) < 0) := by
  decide

/-- Claim C2, amended: for every valid (non-null, non-empty) identifier,
`stop` returns `0` regardless of lifecycle history — the code has no
lifecycle state table, never returns `NotFound` or `InvalidState`, and stop
is idempotent. -/
theorem stop_valid_id_always_ok (bs : List Nat) (h : bs ≠ []) :
    runTrace [Op.stop (some bs), Op.stop (some bs)] = [0, 0] := by
  simp [runTrace, runTraceFrom, stepCall, runOp, agent_stop_vm_of_ne_nil bs h]

/-- Claim C2, witness: the amended statement applied to the id vm-1. -/
theorem stop_valid_id_always_ok_witness :
    id0 ≠ [] ∧ runTrace [Op.stop (some id0), Op.stop (some id0)] = [0, 0] :=
  ⟨by decide, stop_valid_id_always_ok id0 (by decide)⟩

/-- Claim C3, counterexample: `cleanup` called immediately after a
successful launch of the scenario configuration, with no intervening stop,
returns `0` — not a failure status, hence not `InvalidState` as the claim
states. -/
theorem cleanup_after_launch_counterexample :
    runTrace [Op.launch (some cfg0), Op.cleanup (some id0)] = [0, 0] ∧
    ¬ (runTrace [Op.launch (some cfg0), Op.cleanup (some id0)]).getLastD (-1) < 0 := by
  decide

/-- Claim C3, amended: `cleanup` on any valid identifier returns `0`
regardless of prior operations; in particular cleanup immediately after a
successful launch with no intervening stop succeeds, and there is no
lifecycle state for it to mutate. -/
theorem cleanup_any_valid_id_ok (cfg : AgentVMConfig) (i : List Nat)
    (h1 : agent_launch_vm (some cfg) = 0) (h2 : i ≠ []) :
    runTrace [Op.launch (some cfg), Op.cleanup (some i)] = [0, 0] := by
  simp [runTrace, runTraceFrom, stepCall, runOp, h1,
    agent_cleanup_vm_of_ne_nil i h2]

/-- Claim C3, witness: the amended statement applied to the scenario
configuration and its id. -/
theorem cleanup_any_valid_id_ok_witness :
    agent_launch_vm (some cfg0) = 0 ∧ id0 ≠ [] ∧
    runTrace [Op.launch (some cfg0), Op.cleanup (some id0)] = [0, 0] :=
  ⟨by decide, by decide, cleanup_any_valid_id_ok cfg0 id0 (by decide) (by decide)⟩

/-- Claim C4, counterexample: a configuration with a valid id but null
`rootfs_image`, zero `cpu_count`, zero `memory_mib` and null `network_mode`
is accepted by `agent_launch_vm` with status `0`, not rejected with
`InvalidArgument` as the claim states. -/
theorem launch_ignores_other_fields_counterexample :
    cfgBad.rootfs_image = none ∧ cfgBad.cpu_count = 0 ∧
    cfgBad.memory_mib = 0 ∧ cfgBad.network_mode = none ∧
    agent_launch_vm (some cfgBad) = 0 ∧ ¬ ((0 : Int) < 0) := by
  decide

/-- Claim C4, amended: `agent_launch_vm` on a non-null configuration
returns the failure status `-1` exactly when the `id` field is a null
reference or an empty string; `rootfs_image`, `cpu_count`, `memory_mib` and
`network_mode` are never inspected, so the remaining conditions of the
spec invariant are not enforced by the code. -/
theorem launch_failure_iff_id_invalid :
    agent_launch_vm none = -1 ∧
    ∀ cfg : AgentVMConfig,
      agent_launch_vm (some cfg) = -1 ↔ (cfg.id = none ∨ cfg.id = some []) := by
  refine ⟨rfl, ?_⟩
  intro cfg
  rcases cfg with ⟨i, r, cc, m, nm⟩
  cases i with
  | none => simp [agent_launch_vm]
  | some bs =>
    cases bs with
    | nil => simp [agent_launch_vm]
    | cons a t => simp [agent_launch_vm]

/-- Claim C5: the identifier consisting of the single byte `0xFF` is
non-empty and not valid UTF-8, yet all three operations accept it with
status `0` instead of returning `InvalidArgument`: the encoding check the
source comment announces is not performed. -/
theorem invalid_utf8_id_accepted :
    validUtf8 [0xFF] = false ∧ ([0xFF] : List Nat) ≠ [] ∧
    agent_stop_vm (some [0xFF]) = 0 ∧
    agent_cleanup_vm (some [0xFF]) = 0 ∧
    agent_launch_vm (some cfgFF) = 0 := by
  decide

/-- Claim C6: a launch request with a null configuration reference returns
the failure status `-1` (a negative value, `InvalidArgument` in the spec
taxonomy) and leaves the process state unchanged, invoking nothing. -/
theorem launch_null_config_rejected :
    stepCall () (Op.launch none) = (-1, ()) ∧ (-1 : Int) < 0 := by
  decide

/-- Claim C7: for any configuration with a valid id, the round trip
launch, stop, cleanup returns success three times and a subsequent launch
with the same id succeeds again — the code tracks no entries, so nothing
prevents identifier reuse after teardown. -/
theorem roundtrip_and_reuse (cfg : AgentVMConfig) (i : List Nat)
    (hid : cfg.id = some i) (hne : i ≠ []) :
    runTrace [Op.launch (some cfg), Op.stop (some i), Op.cleanup (some i),
      Op.launch (some cfg)] = [0, 0, 0, 0] := by
  have hl : agent_launch_vm (some cfg) = 0 := by
    rcases cfg with ⟨ci, r, cc, m, nm⟩
    simp only at hid
    subst hid
    cases i with
    | nil => exact absurd rfl hne
    | cons a t => rfl
  simp [runTrace, runTraceFrom, stepCall, runOp, hl,
    agent_stop_vm_of_ne_nil i hne, agent_cleanup_vm_of_ne_nil i hne]

/-- Claim C7, witness: the round trip and relaunch for the scenario
configuration and its id vm-1. -/
theorem roundtrip_and_reuse_witness :
    cfg0.id = some id0 ∧ id0 ≠ [] ∧
    runTrace [Op.launch (some cfg0), Op.stop (some id0), Op.cleanup (some id0),
      Op.launch (some cfg0)] = [0, 0, 0, 0] :=
  ⟨rfl, by decide, roundtrip_and_reuse cfg0 id0 rfl (by decide)⟩

/-- Claim C8: every boundary call returns either `0` (success) or `-1`,
and `-1` is negative — the status convention of the spec, with every
failure collapsed to the single value `-1`. -/
theorem status_convention :
    (∀ op : Op, runOp op = 0 ∨ runOp op = -1) ∧ (-1 : Int) < 0 := by
  refine ⟨?_, by decide⟩
  intro op
  cases op with
  | launch c => exact agent_launch_vm_zero_or_neg_one c
  | stop i => exact agent_stop_vm_zero_or_neg_one i
  | cleanup i => exact agent_cleanup_vm_zero_or_neg_one i

/-- Claim C9: a non-null configuration whose id points at a non-empty
string is accepted with status `0`, whatever the values of
`rootfs_image`, `cpu_count`, `memory_mib` and `network_mode`: launch
inspects only the id field. -/
theorem launch_checks_only_id (cfg : AgentVMConfig) (bs : List Nat)
    (h1 : cfg.id = some bs) (h2 : bs ≠ []) :
    agent_launch_vm (some cfg) = 0 := by
  rcases cfg with ⟨i, r, cc, m, nm⟩
  simp only at h1
  subst h1
  cases bs with
  | nil => exact absurd rfl h2
  | cons a t => rfl

/-- Claim C9, witness: the configuration with null rootfs_image, zero
cpu_count, zero memory_mib and null network_mode is still accepted. -/
theorem launch_checks_only_id_witness :
    cfgBad.id = some id0 ∧ id0 ≠ [] ∧ agent_launch_vm (some cfgBad) = 0 :=
  ⟨rfl, by decide, launch_checks_only_id cfgBad id0 rfl (by decide)⟩

/-- Claim C10: the three operations are stateless and deterministic — a
boundary call never changes the process state, and the status of a call
appended after any call history equals `runOp` of that call alone, so it
depends only on the call's own arguments and no call changes the result of
a later one. -/
theorem calls_stateless :
    (∀ (s : ModuleState) (op : Op), (stepCall s op).2 = s) ∧
    ∀ (s : ModuleState) (t : List Op) (op : Op),
      runTraceFrom s (t ++ [op]) = runTraceFrom s t ++ [runOp op] := by
  refine ⟨fun s op => rfl, ?_⟩
  intro s t op
  induction t generalizing s with
  | nil => rfl
  | cons hd tl ih => simp [runTraceFrom, ih]

end ERA
